import Mathlib

/-!
Verification of the L3 controller plugin
(`dragonflow/neutron/services/l3/l3_controller_plugin.py`).

The Python code is shallowly embedded at the dictionary level:

* `PyVal` models Python values (None, int, bool, str, list, dict with
  string keys — the only key type used by this module);
* `Except PyErr` models Python exceptions (`KeyError`, `IndexError`,
  `UnboundLocalError`/`NameError`, `TypeError`);
* `Eff` is the trace of outgoing notifications (RPC casts, targeted
  ARP calls, router-deleted and routers-updated notifications, and the
  scheduler's policy calls); context threading to the transport layer
  is elided since it never influences the logic under scrutiny;
* external collaborators (core plugin port/subnet store, ML2 binding
  store, agent registry, scheduling policy, the tuple
  `ROUTER_INTERFACE_OWNERS` from `neutron.common.constants`) are an
  explicit `Env` record of total functions.

Python dictionaries are association lists with insertion-order
semantics: assigning an existing key updates it in place, assigning a
fresh key appends.  In-place mutation of a caller's dict is rendered as
returning the updated dictionary value.
-/

/-- A Python value as used by this module. -/
inductive PyVal where
  | none
  | int (n : Int)
  | bool (b : Bool)
  | str (s : String)
  | list (xs : List PyVal)
  | dict (entries : List (String × PyVal))

/-- A Python exception, as far as this module can raise one. -/
inductive PyErr where
  | keyError (k : String)
  | indexError
  | nameError (v : String)
  | typeError (msg : String)

/-- An L3 agent as returned by the agent registry (`get_l3_agents`):
only its `topic` and `host` attributes are read. -/
structure Agent where
  topic : String
  host : String

/-- The object returned by `get_bound_port_context`: the `current` port
dict and the `network.network_segments` attribute. -/
structure PortCtx where
  current : PyVal
  network_segments : PyVal

/-- One observable outgoing action of the plugin. -/
inductive Eff where
  | castArp (topic host method : String) (payload : PyVal)
  | targetedArp (method : String) (router_id arp_table operation : PyVal)
  | routerDeleted (router_id : PyVal)
  | routersUpdated (router_ids : List PyVal) (operation : String) (data : PyVal)
  | getRoutersToSchedule (router_ids : PyVal)
  | bindRouters (routers : List PyVal) (agent : Agent)

/-- The external collaborators of the plugin. -/
structure Env where
  get_port : PyVal → PyVal → PyVal
  get_subnet : PyVal → PyVal → PyVal
  get_bound_port_context : PyVal → PyVal → PyVal → Option PortCtx
  get_l3_agents : List Agent
  get_enabled_agent_on_host : PyVal → PyVal → Option Agent
  router_interface_owners : List String
  router_scheduler_present : Bool
  get_routers_to_schedule : PyVal → List PyVal

/-- Association-list lookup, first match wins (Python dict lookup). -/
def dictGet : List (String × PyVal) → String → Option PyVal
  | [], _ => Option.none
  | kv :: rest, k => if kv.1 = k then some kv.2 else dictGet rest k

/-- Python dict assignment `d[k] = v`: update in place if the key
exists, append otherwise. -/
def dictSet : List (String × PyVal) → String → PyVal → List (String × PyVal)
  | [], k, v => [(k, v)]
  | kv :: rest, k, v => if kv.1 = k then (k, v) :: rest else kv :: dictSet rest k v

/-- `kwargs[k]` on the callback keyword arguments: `KeyError` if absent. -/
def kwGet (kwargs : List (String × PyVal)) (k : String) : Except PyErr PyVal :=
  match kwargs.find? (fun kv => kv.1 = k) with
  | some kv => .ok kv.2
  | Option.none => .error (.keyError k)

/-- `d[k]` subscription: `KeyError` when the key is absent, `TypeError`
when the value is not a dict (no other value is subscripted by a string
key in this module). -/
def PyVal.getItem : PyVal → String → Except PyErr PyVal
  | .dict d, k =>
    match dictGet d k with
    | some v => .ok v
    | Option.none => .error (.keyError k)
  | _, _ => .error (.typeError "object is not subscriptable")

/-- `d[k] = v` item assignment, returning the updated dict. -/
def PyVal.setItem : PyVal → String → PyVal → Except PyErr PyVal
  | .dict d, k, v => .ok (.dict (dictSet d k v))
  | _, _, _ => .error (.typeError "object does not support item assignment")

/-- `d.get(k, default)`. -/
def PyVal.pyGet : PyVal → String → PyVal → Except PyErr PyVal
  | .dict d, k, dflt => .ok ((dictGet d k).getD dflt)
  | _, _, _ => .error (.typeError "object has no attribute get")

/-- Python truthiness. -/
def PyVal.truthy : PyVal → Bool
  | .none => false
  | .int n => decide (n ≠ 0)
  | .bool b => b
  | .str s => decide (s ≠ "")
  | .list xs => !xs.isEmpty
  | .dict d => !d.isEmpty

/-- `v is None`. -/
def PyVal.isNone : PyVal → Bool
  | .none => true
  | _ => false

/-- Whether the value is a Python bool. -/
def PyVal.isBool : PyVal → Bool
  | .bool _ => true
  | _ => false

/-- Python `v == s` against a string literal: strings compare by
content, any other value compares unequal (no exception). -/
def pyEqStr : PyVal → String → Bool
  | .str a, b => decide (a = b)
  | _, _ => false

/-- Python `v in owners` for a tuple of string constants
(membership by equality). -/
def pyMemStrs (v : PyVal) (ss : List String) : Bool :=
  ss.any (fun s => pyEqStr v s)

/-- Substring containment, the meaning of Python `sub in s` on strings. -/
def strContainsSub (s sub : String) : Bool :=
  s.data.tails.any (fun t => sub.data.isPrefixOf t)

/-- Python `sub in v`: substring test on strings, membership on lists,
key containment on dicts, `TypeError` otherwise. -/
def pyInStr (sub : String) : PyVal → Except PyErr Bool
  | .str s => .ok (strContainsSub s sub)
  | .list xs => .ok (xs.any (fun v => pyEqStr v sub))
  | .dict d => .ok (d.any (fun kv => decide (kv.1 = sub)))
  | _ => .error (.typeError "argument is not iterable")

/-- Python `len(v)` for the value shapes reaching it here. -/
def pyLen : PyVal → Except PyErr Nat
  | .list xs => .ok xs.length
  | .str s => .ok s.length
  | .dict d => .ok d.length
  | _ => .error (.typeError "object has no len")

/-- Iterating a value with a `for` loop / list comprehension: every
iterated value in this module is a list. -/
def asPyList : PyVal → Except PyErr (List PyVal)
  | .list xs => .ok xs
  | _ => .error (.typeError "object is not iterable")

/-- `segments[0]`: head of a list (`IndexError` when empty); our dicts
are string-keyed, so subscripting a dict by the int key `0` raises
`KeyError`; any other shape is a `TypeError`. -/
def subscript0 : PyVal → Except PyErr PyVal
  | .list [] => .error .indexError
  | .list (x :: _) => .ok x
  | .dict _ => .error (.keyError "0")
  | _ => .error (.typeError "object is not subscriptable")

/-- `is_vm_port_with_ip_addresses(port_dict)`: owner tag contains
`"compute:"` and the `fixed_ips` list is non-empty. -/
def is_vm_port_with_ip_addresses (port_dict : PyVal) : Except PyErr Bool := do
  let owner ← port_dict.getItem "device_owner"
  let is_vm ← pyInStr "compute:" owner
  let fips ← port_dict.getItem "fixed_ips"
  let n ← pyLen fips
  pure (is_vm && decide (0 < n))

/-- `_agent_notification_arp`: one cast per registered L3 agent, each
to that agent's topic/host, with payload
`{'router_id': 0, 'arp_table': data}`. -/
def _agent_notification_arp (env : Env) (method : String) (data : PyVal) : List Eff :=
  env.get_l3_agents.map fun a =>
    .castArp a.topic a.host method (.dict [("router_id", .int 0), ("arp_table", data)])

/-- `_add_arp_entry`: targeted notifier call when `router_id` is truthy,
fan-out broadcast otherwise. -/
def _add_arp_entry (env : Env) (router_id arp_table operation : PyVal) : List Eff :=
  if router_id.truthy then [.targetedArp "add_arp_entry" router_id arp_table operation]
  else _agent_notification_arp env "add_arp_entry" arp_table

/-- `_del_arp_entry`: targeted notifier call when `router_id` is truthy,
fan-out broadcast otherwise. -/
def _del_arp_entry (env : Env) (router_id arp_table operation : PyVal) : List Eff :=
  if router_id.truthy then [.targetedArp "del_arp_entry" router_id arp_table operation]
  else _agent_notification_arp env "del_arp_entry" arp_table

/-- `_send_new_port_notify`: stores `segmentation_id` into the port
dict, then dispatches on the action tag; an unknown tag leaves the
local `notify_action` unbound (`UnboundLocalError` at the call). -/
def _send_new_port_notify (env : Env) (notify_port : PyVal) (action : String)
    (router_id segmentation_id : PyVal) : Except PyErr (PyVal × List Eff) := do
  let np ← notify_port.setItem "segmentation_id" segmentation_id
  if action = "add" then pure (np, _add_arp_entry env router_id np .none)
  else if action = "del" then pure (np, _del_arp_entry env router_id np .none)
  else .error (.nameError "notify_action")

/-- The subnet-enrichment comprehension
`[get_subnet(context, fixed_ip['subnet_id']) for fixed_ip in fixed_ips]`. -/
def subnetsOf (env : Env) (ctx : PyVal) : List PyVal → Except PyErr (List PyVal)
  | [] => .ok []
  | f :: fs => do
    let sid ← f.getItem "subnet_id"
    let rest ← subnetsOf env ctx fs
    pure (env.get_subnet ctx sid :: rest)

/-- Helper for `get_ml2_port_bond_data`: the `entry` dict literal,
reads in the source's evaluation order. -/
def bond_entry (port_id device_id : PyVal) (port segment : PyVal) :
    Except PyErr (List (String × PyVal)) := do
  let nid ← port.getItem "network_id"
  let mac ← port.getItem "mac_address"
  let asu ← port.getItem "admin_state_up"
  let ntype ← segment.getItem "network_type"
  let sid ← segment.getItem "segmentation_id"
  let pnet ← segment.getItem "physical_network"
  let fips ← port.getItem "fixed_ips"
  let downer ← port.getItem "device_owner"
  pure [("device", device_id), ("network_id", nid), ("port_id", port_id),
        ("mac_address", mac), ("admin_state_up", asu),
        ("network_type", ntype), ("segmentation_id", sid),
        ("physical_network", pnet), ("fixed_ips", fips),
        ("device_owner", downer)]

/-- `get_ml2_port_bond_data`: returns `None` when no bound port context
exists; otherwise reads `network_segments[0]` inside
`try ... except KeyError`, whose handler dereferences the unbound local
`segment` (an `UnboundLocalError`, a `NameError` subclass), while an
`IndexError` from an empty segment list escapes uncaught; on success
builds the binding-entry dict. -/
def get_ml2_port_bond_data (env : Env) (ctx port_id device_id : PyVal) :
    Except PyErr PyVal :=
  match env.get_bound_port_context ctx port_id device_id with
  | Option.none => .ok .none
  | some pc =>
    match subscript0 pc.network_segments with
    | .error (.keyError _) => .error (.nameError "segment")
    | .error e => .error e
    | .ok segment => (bond_entry port_id device_id pc.current segment).map PyVal.dict

/-- `_get_segmentation_id`: `0` when the bond data is `None`, otherwise
`port_data.get('segmentation_id', 0)`. -/
def _get_segmentation_id (env : Env) (ctx port : PyVal) : Except PyErr PyVal := do
  let pid ← port.getItem "id"
  let host ← port.getItem "binding:host_id"
  let port_data ← get_ml2_port_bond_data env ctx pid host
  if port_data.isNone then pure (.int 0)
  else port_data.pyGet "segmentation_id" (.int 0)

/-- The `router_id` resolution block of `add_vm_port`: `0`, unless the
(re-fetched) port's owner is one of `ROUTER_INTERFACE_OWNERS`, in which
case the port's `device_id`. -/
def build_add_router_id (owners : List String) (np : PyVal) : Except PyErr PyVal := do
  let owner ← np.getItem "device_owner"
  if pyMemStrs owner owners then np.getItem "device_id" else pure (.int 0)

/-- `add_vm_port`: re-fetch the port, enrich with subnets, resolve
`router_id` and `segmentation_id`, then notify with action `"add"`. -/
def add_vm_port (env : Env) (ctx port_dict : PyVal) : Except PyErr (PyVal × List Eff) := do
  let pid ← port_dict.getItem "id"
  let notify_port := env.get_port ctx pid
  let fips ← notify_port.getItem "fixed_ips"
  let fipsL ← asPyList fips
  let subs ← subnetsOf env ctx fipsL
  let np ← notify_port.setItem "subnets" (.list subs)
  let router_id ← build_add_router_id env.router_interface_owners np
  let seg ← _get_segmentation_id env ctx np
  _send_new_port_notify env np "add" router_id seg

/-- `add_port`: gate on `is_vm_port_with_ip_addresses`. -/
def add_port (env : Env) (ctx port_dict : PyVal) : Except PyErr (PyVal × List Eff) := do
  let b ← is_vm_port_with_ip_addresses port_dict
  if b then add_vm_port env ctx port_dict else pure (port_dict, [])

/-- `remove_vm_port`: enrich the caller's dict with subnets in place,
then notify with action `"del"`, `router_id = 0`, `segmentation_id = 0`. -/
def remove_vm_port (env : Env) (ctx port_dict : PyVal) : Except PyErr (PyVal × List Eff) := do
  let fips ← port_dict.getItem "fixed_ips"
  let fipsL ← asPyList fips
  let subs ← subnetsOf env ctx fipsL
  let pd ← port_dict.setItem "subnets" (.list subs)
  _send_new_port_notify env pd "del" (.int 0) (.int 0)

/-- `remove_port`: gate on `is_vm_port_with_ip_addresses`. -/
def remove_port (env : Env) (ctx port_dict : PyVal) : Except PyErr (PyVal × List Eff) := do
  let b ← is_vm_port_with_ip_addresses port_dict
  if b then remove_vm_port env ctx port_dict else pure (port_dict, [])

/-- `remove_router_from_l3_agent`: forwards only the router id to
`l3_rpc_notifier.router_deleted`; the `agent_id` argument is unused. -/
def remove_router_from_l3_agent (ctx agent_id router_id : PyVal) : List Eff :=
  [.routerDeleted router_id]

/-- `delete_router_interface`: a routers-updated broadcast tagged
`"del_interface"` carrying the deleted port. -/
def delete_router_interface (ctx notify_port : PyVal) : Except PyErr (List Eff) := do
  let did ← notify_port.getItem "device_id"
  pure [.routersUpdated [did] "del_interface" (.dict [("port", notify_port)])]

/-- The `for router in removed_routers` loop of
`_notify_l3_agent_delete_port`: per entry read `agent_id` then
`router_id` and call `remove_router_from_l3_agent`. -/
def routerLoop (ctx : PyVal) : List PyVal → Except PyErr (List Eff)
  | [] => .ok []
  | r :: rest => do
    let aid ← r.getItem "agent_id"
    let rid ← r.getItem "router_id"
    let effs ← routerLoop ctx rest
    pure (remove_router_from_l3_agent ctx aid rid ++ effs)

/-- The `if port['device_owner'] in ROUTER_INTERFACE_OWNERS` statement
of `_notify_l3_agent_delete_port`: the router-interface broadcast when
the owner tag matches, nothing otherwise. -/
def riOwnerEffs (env : Env) (ctx owner port2 : PyVal) : Except PyErr (List Eff) :=
  if pyMemStrs owner env.router_interface_owners
  then delete_router_interface ctx port2 else pure []

/-- `_notify_l3_agent_delete_port`: direct `kwargs[...]` reads, the
port-removed path, the router-interface broadcast, then the
removed-routers loop. -/
def _notify_l3_agent_delete_port (env : Env) (kwargs : List (String × PyVal)) :
    Except PyErr (PyVal × List Eff) := do
  let ctx ← kwGet kwargs "context"
  let port ← kwGet kwargs "port"
  let removed ← kwGet kwargs "removed_routers"
  let res ← remove_port env ctx port
  let port2 := res.1
  let owner ← port2.getItem "device_owner"
  let effs2 ← riOwnerEffs env ctx owner port2
  let rrs ← asPyList removed
  let effs3 ← routerLoop ctx rrs
  pure (port2, res.2 ++ effs2 ++ effs3)

/-- `auto_schedule_routers`: `False` when no enabled L3 agent exists on
the host; otherwise consult the scheduling policy, bind, and fall off
the end of the function (Python returns `None`). -/
def auto_schedule_routers (env : Env) (ctx host router_ids : PyVal) : PyVal × List Eff :=
  match env.get_enabled_agent_on_host ctx host with
  | Option.none => (.bool false, [])
  | some l3_agent =>
    if env.router_scheduler_present then
      (.none, [.getRoutersToSchedule router_ids,
               .bindRouters (env.get_routers_to_schedule router_ids) l3_agent])
    else (.none, [])

/-! Concrete data used to instantiate the theorems below. -/

/-- A concrete request context (its contents are never inspected). -/
def ctxW : PyVal := .none

/-- Two registered L3 agents. -/
def agentsW : List Agent := [⟨"l3_agent", "host-a"⟩, ⟨"l3_agent", "host-b"⟩]

/-- A concrete subnet record. -/
def subnetW : PyVal := .dict [("id", .str "s1"), ("cidr", .str "10.0.0.0/24")]

/-- A bound network segment carrying segmentation id 7. -/
def segW : PyVal :=
  .dict [("network_type", .str "vlan"), ("segmentation_id", .int 7),
         ("physical_network", .str "phys")]

/-- A bound network segment whose segmentation id is literally 0. -/
def segZeroW : PyVal :=
  .dict [("network_type", .str "vlan"), ("segmentation_id", .int 0),
         ("physical_network", .str "phys")]

/-- A concrete VM port dict. -/
def portVmW : PyVal :=
  .dict [("id", .str "p1"), ("device_owner", .str "compute:nova"),
         ("device_id", .str "vm1"), ("binding:host_id", .str "host-a"),
         ("fixed_ips", .list [.dict [("subnet_id", .str "s1")]]),
         ("network_id", .str "n1"), ("mac_address", .str "fa:16:3e:00:00:01"),
         ("admin_state_up", .bool true)]

/-- A concrete router-interface port dict. -/
def portRiW : PyVal :=
  .dict [("id", .str "p2"), ("device_owner", .str "network:router_interface"),
         ("device_id", .str "r7"), ("binding:host_id", .str "host-a"),
         ("fixed_ips", .list [.dict [("subnet_id", .str "s1")]]),
         ("network_id", .str "n1"), ("mac_address", .str "fa:16:3e:00:00:02"),
         ("admin_state_up", .bool true)]

/-- An ineligible port: compute-owned but with no fixed IPs. -/
def portNoIpW : PyVal :=
  .dict [("device_owner", .str "compute:nova"), ("fixed_ips", .list [])]

/-- A bound port context with a healthy first segment. -/
def pcW : PortCtx := ⟨portVmW, .list [segW]⟩

/-- A bound port context whose first segment has segmentation id 0. -/
def pcZeroW : PortCtx := ⟨portVmW, .list [segZeroW]⟩

/-- A bound port context with an empty segment list. -/
def pcEmptySegW : PortCtx := ⟨portVmW, .list []⟩

/-- A bound port context whose segments container is a (string-keyed)
dict, so that subscripting by 0 raises `KeyError`. -/
def pcDictSegW : PortCtx := ⟨portVmW, .dict []⟩

/-- The baseline environment: VM port in the store, healthy binding,
two agents, no enabled agent on any host, the standard
router-interface owner tags, a scheduler policy that returns no
unscheduled routers. -/
def envW : Env :=
  { get_port := fun _ _ => portVmW,
    get_subnet := fun _ _ => subnetW,
    get_bound_port_context := fun _ _ _ => some pcW,
    get_l3_agents := agentsW,
    get_enabled_agent_on_host := fun _ _ => Option.none,
    router_interface_owners :=
      ["network:router_interface", "network:router_interface_distributed"],
    router_scheduler_present := true,
    get_routers_to_schedule := fun _ => [] }

/-- `envW` with the binding's first segment carrying segmentation id 0. -/
def envZeroSegW : Env := { envW with get_bound_port_context := fun _ _ _ => some pcZeroW }

/-- `envW` with an empty segment list behind the binding. -/
def envEmptySegW : Env := { envW with get_bound_port_context := fun _ _ _ => some pcEmptySegW }

/-- `envW` with a dict-shaped segments container behind the binding. -/
def envDictSegW : Env := { envW with get_bound_port_context := fun _ _ _ => some pcDictSegW }

/-- `envW` with the port store holding the router-interface port. -/
def envRiW : Env := { envW with get_port := fun _ _ => portRiW }

/-- `envW` with an enabled L3 agent present on every host. -/
def envAgentW : Env :=
  { envW with get_enabled_agent_on_host := fun _ _ => some ⟨"l3_agent", "host-a"⟩ }

/-- The VM port after the delete path mutated it: `subnets` then
`segmentation_id = 0` appended. -/
def portVmDelW : PyVal :=
  .dict [("id", .str "p1"), ("device_owner", .str "compute:nova"),
         ("device_id", .str "vm1"), ("binding:host_id", .str "host-a"),
         ("fixed_ips", .list [.dict [("subnet_id", .str "s1")]]),
         ("network_id", .str "n1"), ("mac_address", .str "fa:16:3e:00:00:01"),
         ("admin_state_up", .bool true), ("subnets", .list [subnetW]),
         ("segmentation_id", .int 0)]

/-- The router-interface port after the add path enriched it:
`subnets` then `segmentation_id = 7` appended. -/
def portRiAddW : PyVal :=
  .dict [("id", .str "p2"), ("device_owner", .str "network:router_interface"),
         ("device_id", .str "r7"), ("binding:host_id", .str "host-a"),
         ("fixed_ips", .list [.dict [("subnet_id", .str "s1")]]),
         ("network_id", .str "n1"), ("mac_address", .str "fa:16:3e:00:00:02"),
         ("admin_state_up", .bool true), ("subnets", .list [subnetW]),
         ("segmentation_id", .int 7)]

/-- One removed-routers entry naming agent `a3`. -/
def removedEntryW : PyVal :=
  .dict [("agent_id", .str "a3"), ("router_id", .str "r7")]

/-- AFTER_DELETE kwargs with every expected key present. -/
def kwargsW : List (String × PyVal) :=
  [("context", ctxW), ("port", portVmW), ("removed_routers", .list [removedEntryW])]

/-- The same kwargs with the removed-routers entry naming agent `a4`. -/
def kwargsAltAgentW : List (String × PyVal) :=
  [("context", ctxW), ("port", portVmW),
   ("removed_routers", .list [.dict [("agent_id", .str "a4"), ("router_id", .str "r7")]])]

/-- AFTER_DELETE kwargs with the `removed_routers` key missing. -/
def kwargsNoRemovedW : List (String × PyVal) :=
  [("context", ctxW), ("port", portVmW)]

/-- The binding entry the resolver builds for `envZeroSegW`: the
`segmentation_id` key is present, with value 0. -/
def bondEntryZeroW : List (String × PyVal) :=
  [("device", .str "host-a"), ("network_id", .str "n1"), ("port_id", .str "p1"),
   ("mac_address", .str "fa:16:3e:00:00:01"), ("admin_state_up", .bool true),
   ("network_type", .str "vlan"), ("segmentation_id", .int 0),
   ("physical_network", .str "phys"),
   ("fixed_ips", .list [.dict [("subnet_id", .str "s1")]]),
   ("device_owner", .str "compute:nova")]

/-! Helper lemmas. -/

@[simp]
theorem pure_eq_ok {α : Type} (a : α) : (pure a : Except PyErr α) = .ok a := rfl

@[simp]
theorem ok_bind {α β : Type} (a : α) (f : α → Except PyErr β) :
    (Except.ok a >>= f) = f a := rfl

@[simp]
theorem error_bind {α β : Type} (e : PyErr) (f : α → Except PyErr β) :
    ((Except.error e : Except PyErr α) >>= f) = Except.error e := rfl

theorem except_bind_ok {α β : Type} {x : Except PyErr α} {f : α → Except PyErr β} {b : β} :
    (x >>= f) = .ok b ↔ ∃ a, x = .ok a ∧ f a = .ok b := by
  cases x with
  | error e => simp
  | ok a => simp

theorem dictGet_dictSet_self (d : List (String × PyVal)) (k : String) (v : PyVal) :
    dictGet (dictSet d k v) k = some v := by
  induction d with
  | nil => simp [dictSet, dictGet]
  | cons kv rest ih =>
    by_cases h : kv.1 = k
    · simp [dictSet, dictGet, h]
    · simp [dictSet, dictGet, h, ih]

theorem dictGet_dictSet_ne (d : List (String × PyVal)) (k k2 : String) (v : PyVal)
    (h : ¬ k2 = k) : dictGet (dictSet d k v) k2 = dictGet d k2 := by
  have hne : ¬ k = k2 := fun hh => h hh.symm
  induction d with
  | nil => simp [dictSet, dictGet, hne]
  | cons kv rest ih =>
    by_cases hk : kv.1 = k
    · simp [dictSet, dictGet, hk, hne]
    · simp [dictSet, dictGet, hk, ih]

theorem getItem_setItem_ne (d : List (String × PyVal)) (k k2 : String) (v : PyVal)
    (h : ¬ k2 = k) :
    (PyVal.dict (dictSet d k v)).getItem k2 = (PyVal.dict d).getItem k2 := by
  simp [PyVal.getItem, dictGet_dictSet_ne d k k2 v h]

theorem getItem_ok_dict (p : PyVal) (k : String) (v : PyVal) (h : p.getItem k = .ok v) :
    ∃ d, p = .dict d := by
  cases p <;> first
  | exact ⟨_, rfl⟩
  | simp [PyVal.getItem] at h

/-! Claim theorems. -/

/-- Claim C1: for every port whose `device_owner` does not contain the
compute marker `"compute:"` or whose `fixed_ips` list is empty, both
`add_port` and `remove_port` leave the port untouched, send no
notification and raise nothing — the event is a skip. -/
theorem claim1_skip_ineligible (env : Env) (ctx p : PyVal) (owner : String)
    (fips : List PyVal)
    (howner : p.getItem "device_owner" = .ok (.str owner))
    (hfips : p.getItem "fixed_ips" = .ok (.list fips))
    (hskip : strContainsSub owner "compute:" = false ∨ fips = []) :
    add_port env ctx p = .ok (p, []) ∧ remove_port env ctx p = .ok (p, []) := by
  have hb : is_vm_port_with_ip_addresses p = .ok false := by
    unfold is_vm_port_with_ip_addresses
    rw [howner]
    simp only [ok_bind, pyInStr, pyLen]
    rw [hfips]
    simp only [ok_bind, pyLen]
    rcases hskip with h | h
    · simp [h]
    · subst h
      simp
  constructor
  · unfold add_port
    rw [hb]
    simp
  · unfold remove_port
    rw [hb]
    simp

/-- Claim C1 witness: a compute-owned port with no fixed IPs is skipped
by both paths. -/
theorem claim1_witness :
    add_port envW ctxW portNoIpW = .ok (portNoIpW, [])
    ∧ remove_port envW ctxW portNoIpW = .ok (portNoIpW, []) :=
  claim1_skip_ineligible envW ctxW portNoIpW "compute:nova" [] rfl rfl (Or.inr rfl)

/-- Claim C2: a dispatch with `router_id == 0` (for the add and the
delete variant alike) takes the broadcast path, which casts exactly one
one-way message per agent returned by the registry — index for index,
none skipped, none duplicated — each addressed to that agent's own
topic/host pair with `router_id` forced to `0` in the payload. -/
theorem claim2_broadcast_all_agents (env : Env) (tbl op : PyVal) :
    _add_arp_entry env (.int 0) tbl op = _agent_notification_arp env "add_arp_entry" tbl
    ∧ _del_arp_entry env (.int 0) tbl op = _agent_notification_arp env "del_arp_entry" tbl
    ∧ ∀ (method : String) (data : PyVal),
        (_agent_notification_arp env method data).length = env.get_l3_agents.length
        ∧ ∀ i, (_agent_notification_arp env method data).get? i =
            (env.get_l3_agents.get? i).map (fun a =>
              Eff.castArp a.topic a.host method
                (.dict [("router_id", .int 0), ("arp_table", data)])) := by
  refine ⟨?_, ?_, ?_⟩
  · simp [_add_arp_entry, PyVal.truthy]
  · simp [_del_arp_entry, PyVal.truthy]
  · intro method data
    constructor
    · simp [_agent_notification_arp]
    · intro i
      simp [_agent_notification_arp, List.get?_map]

/-- Every successful `bond_entry` result carries a `segmentation_id` key. -/
theorem bond_entry_has_sid (pid did port segment : PyVal) (l : List (String × PyVal))
    (h : bond_entry pid did port segment = .ok l) :
    ∃ sid, dictGet l "segmentation_id" = some sid := by
  unfold bond_entry at h
  rw [except_bind_ok] at h
  obtain ⟨nid, h1, h⟩ := h
  rw [except_bind_ok] at h
  obtain ⟨mac, h2, h⟩ := h
  rw [except_bind_ok] at h
  obtain ⟨asu, h3, h⟩ := h
  rw [except_bind_ok] at h
  obtain ⟨ntype, h4, h⟩ := h
  rw [except_bind_ok] at h
  obtain ⟨sid, h5, h⟩ := h
  rw [except_bind_ok] at h
  obtain ⟨pnet, h6, h⟩ := h
  rw [except_bind_ok] at h
  obtain ⟨fips, h7, h⟩ := h
  rw [except_bind_ok] at h
  obtain ⟨downer, h8, h⟩ := h
  simp only [pure_eq_ok, Except.ok.injEq] at h
  subst h
  exact ⟨sid, rfl⟩

/-- Shape of a successful `get_ml2_port_bond_data` result: either the
`None` of a missing binding context, or a dict that always carries a
`segmentation_id` key. -/
theorem bond_data_shape (env : Env) (ctx pid did v : PyVal)
    (h : get_ml2_port_bond_data env ctx pid did = .ok v) :
    (v = .none ∧ env.get_bound_port_context ctx pid did = Option.none)
    ∨ (∃ d, v = .dict d ∧ ∃ sid, dictGet d "segmentation_id" = some sid) := by
  unfold get_ml2_port_bond_data at h
  split at h
  · rename_i hb
    simp only [Except.ok.injEq] at h
    exact Or.inl ⟨h.symm, hb⟩
  · rename_i pc hb
    split at h
    · simp at h
    · simp at h
    · rename_i segment hs
      cases he : bond_entry pid did pc.current segment with
      | error e2 =>
        rw [he] at h
        simp [Except.map] at h
      | ok l =>
        rw [he] at h
        simp only [Except.map, Except.ok.injEq] at h
        exact Or.inr ⟨l, h.symm, bond_entry_has_sid pid did pc.current segment l he⟩

/-- Claim C3 (amended): the binding resolver returns `None` iff the
binding store yields no bound port context; the segmentation-id lookup
yields 0 iff there is no binding data at all, or the binding data's
`segmentation_id` value is itself 0 — binding data, when present,
always carries the `segmentation_id` key, so "key absent" can only mean
"no data". -/
theorem claim3_resolver_amended (env : Env) (ctx port pid host : PyVal)
    (hid : port.getItem "id" = .ok pid)
    (hhost : port.getItem "binding:host_id" = .ok host) :
    (get_ml2_port_bond_data env ctx pid host = .ok .none
      ↔ env.get_bound_port_context ctx pid host = Option.none)
    ∧ ∀ r, _get_segmentation_id env ctx port = .ok r →
        (r = .int 0 ↔ (get_ml2_port_bond_data env ctx pid host = .ok .none
          ∨ ∃ d, get_ml2_port_bond_data env ctx pid host = .ok (.dict d)
              ∧ dictGet d "segmentation_id" = some (.int 0))) := by
  constructor
  · constructor
    · intro h
      rcases bond_data_shape env ctx pid host .none h with ⟨_, hb⟩ | ⟨d, hd, _⟩
      · exact hb
      · simp at hd
    · intro h
      unfold get_ml2_port_bond_data
      rw [h]
  · intro r hr
    unfold _get_segmentation_id at hr
    rw [hid] at hr
    simp only [ok_bind] at hr
    rw [hhost] at hr
    simp only [ok_bind] at hr
    rw [except_bind_ok] at hr
    obtain ⟨pd, hpd, hr⟩ := hr
    rcases bond_data_shape env ctx pid host pd hpd with ⟨hn, hb⟩ | ⟨d, hd, sid, hsid⟩
    · subst hn
      simp only [PyVal.isNone, if_true, pure_eq_ok, Except.ok.injEq] at hr
      constructor
      · intro _
        exact Or.inl hpd
      · intro _
        exact hr.symm
    · subst hd
      simp only [PyVal.isNone, Bool.false_eq_true, if_false, PyVal.pyGet, hsid,
        Option.getD_some, Except.ok.injEq] at hr
      constructor
      · intro h0
        exact Or.inr ⟨d, hpd, by rw [hsid, hr, h0]⟩
      · rintro (hno | ⟨d2, hd2, hz⟩)
        · rw [hpd] at hno
          simp at hno
        · rw [hpd] at hd2
          simp only [Except.ok.injEq, PyVal.dict.injEq] at hd2
          subst hd2
          rw [hsid] at hz
          simp only [Option.some.injEq] at hz
          rw [← hr, hz]

/-- Claim C3 counterexample: with a bound segment whose segmentation id
is literally 0, the lookup yields 0 even though binding data exists and
carries the `segmentation_id` key — refuting "yields 0 only if the
binding data contains no `segmentation_id` key (or no data at all)". -/
theorem claim3_counterexample :
    _get_segmentation_id envZeroSegW ctxW portVmW = .ok (.int 0)
    ∧ get_ml2_port_bond_data envZeroSegW ctxW (.str "p1") (.str "host-a")
        = .ok (.dict bondEntryZeroW)
    ∧ dictGet bondEntryZeroW "segmentation_id" = some (.int 0)
    ∧ (PyVal.dict bondEntryZeroW).isNone = false :=
  ⟨rfl, rfl, rfl, rfl⟩

/-- Claim C3 witness: the resolver-returns-none equivalence at a
concrete environment and port. -/
theorem claim3_witness :
    get_ml2_port_bond_data envW ctxW (.str "p1") (.str "host-a") = .ok .none
      ↔ envW.get_bound_port_context ctxW (.str "p1") (.str "host-a") = Option.none :=
  (claim3_resolver_amended envW ctxW portVmW (.str "p1") (.str "host-a") rfl rfl).1

/-- The fan-out broadcast only depends on the agent registry. -/
theorem agent_arp_congr (env2 env : Env) (h : env2.get_l3_agents = env.get_l3_agents) :
    ∀ m d, _agent_notification_arp env2 m d = _agent_notification_arp env m d := by
  intro m d
  simp [_agent_notification_arp, h]

/-- `_add_arp_entry` only depends on the agent registry. -/
theorem add_arp_congr (env2 env : Env) (h : env2.get_l3_agents = env.get_l3_agents) :
    ∀ rid t o, _add_arp_entry env2 rid t o = _add_arp_entry env rid t o := by
  intro rid t o
  simp only [_add_arp_entry, agent_arp_congr env2 env h]

/-- `_del_arp_entry` only depends on the agent registry. -/
theorem del_arp_congr (env2 env : Env) (h : env2.get_l3_agents = env.get_l3_agents) :
    ∀ rid t o, _del_arp_entry env2 rid t o = _del_arp_entry env rid t o := by
  intro rid t o
  simp only [_del_arp_entry, agent_arp_congr env2 env h]

/-- Subnet enrichment only depends on the subnet store. -/
theorem subnetsOf_congr (env2 env : Env) (h : env2.get_subnet = env.get_subnet) :
    ∀ ctx l, subnetsOf env2 ctx l = subnetsOf env ctx l := by
  intro ctx l
  induction l with
  | nil => rfl
  | cons f fs ih => simp [subnetsOf, ih, h]

/-- Claim C4: every successful eligible delete produces a payload whose
`segmentation_id` is 0 and is dispatched with `router_id = 0` — hence
through the broadcast path, every per-agent payload carrying
`router_id = 0` — and the whole delete path is independent of the
binding store (only the subnet store and the agent registry matter). -/
theorem claim4_delete_zero_ids (env : Env) (ctx p p2 : PyVal) (effs : List Eff)
    (h : remove_vm_port env ctx p = .ok (p2, effs)) :
    p2.getItem "segmentation_id" = .ok (.int 0)
    ∧ effs = _del_arp_entry env (.int 0) p2 .none
    ∧ effs = _agent_notification_arp env "del_arp_entry" p2
    ∧ ∀ env2 : Env, env2.get_subnet = env.get_subnet →
        env2.get_l3_agents = env.get_l3_agents →
        remove_vm_port env2 ctx p = remove_vm_port env ctx p := by
  unfold remove_vm_port at h
  rw [except_bind_ok] at h
  obtain ⟨fips, h1, h⟩ := h
  rw [except_bind_ok] at h
  obtain ⟨fipsL, h2, h⟩ := h
  rw [except_bind_ok] at h
  obtain ⟨subs, h3, h⟩ := h
  rw [except_bind_ok] at h
  obtain ⟨pd, h4, h⟩ := h
  unfold _send_new_port_notify at h
  rw [except_bind_ok] at h
  obtain ⟨np, h5, h⟩ := h
  rw [if_neg (by decide), if_pos rfl] at h
  simp only [pure_eq_ok, Except.ok.injEq, Prod.mk.injEq] at h
  obtain ⟨hnp, heffs⟩ := h
  obtain ⟨d, rfl⟩ := getItem_ok_dict p "fixed_ips" fips h1
  simp only [PyVal.setItem, Except.ok.injEq] at h4
  subst h4
  simp only [PyVal.setItem, Except.ok.injEq] at h5
  subst h5
  subst hnp
  refine ⟨?_, heffs.symm, ?_, ?_⟩
  · simp [PyVal.getItem, dictGet_dictSet_self]
  · rw [← heffs]
    simp [_del_arp_entry, PyVal.truthy]
  · intro env2 hs ha
    have hsub := subnetsOf_congr env2 env hs
    have hdel := del_arp_congr env2 env ha
    have hadd := add_arp_congr env2 env ha
    simp only [remove_vm_port, _send_new_port_notify, hsub, hdel, hadd]

/-- Claim C4 witness: the delete path at a concrete VM port writes
`segmentation_id = 0` into the payload dict. -/
theorem claim4_witness :
    portVmDelW.getItem "segmentation_id" = Except.ok (PyVal.int 0) :=
  (claim4_delete_zero_ids envW ctxW portVmW portVmDelW
    (_agent_notification_arp envW "del_arp_entry" portVmDelW) rfl).1

/-- Writing `segmentation_id` does not change how the router id is
resolved from the port dict. -/
theorem build_router_id_setItem (owners : List String) (d : List (String × PyVal))
    (v : PyVal) :
    build_add_router_id owners (.dict (dictSet d "segmentation_id" v))
      = build_add_router_id owners (.dict d) := by
  unfold build_add_router_id
  rw [getItem_setItem_ne d "segmentation_id" "device_owner" v (by decide)]
  cases how : (PyVal.dict d).getItem "device_owner" with
  | error e => simp
  | ok ow =>
    simp only [ok_bind]
    cases hm : pyMemStrs ow owners
    · simp [hm]
    · simp [hm, getItem_setItem_ne d "segmentation_id" "device_id" v (by decide)]

/-- Claim C5: on a successful eligible add, the dispatched notification
carries exactly the resolved router id: the port's `device_id` when the
re-fetched port's owner tag is one of the recognized router-interface
owner kinds, and 0 for every other owner tag. -/
theorem claim5_add_router_id (env : Env) (ctx p p2 : PyVal) (effs : List Eff)
    (rid owner : PyVal)
    (hrun : add_vm_port env ctx p = .ok (p2, effs))
    (hrid : build_add_router_id env.router_interface_owners p2 = .ok rid)
    (howner : p2.getItem "device_owner" = .ok owner) :
    effs = _add_arp_entry env rid p2 .none
    ∧ (pyMemStrs owner env.router_interface_owners = true →
        p2.getItem "device_id" = .ok rid)
    ∧ (pyMemStrs owner env.router_interface_owners = false → rid = .int 0) := by
  unfold add_vm_port at hrun
  rw [except_bind_ok] at hrun
  obtain ⟨pid, g1, hrun⟩ := hrun
  rw [except_bind_ok] at hrun
  obtain ⟨fips, g2, hrun⟩ := hrun
  rw [except_bind_ok] at hrun
  obtain ⟨fipsL, g3, hrun⟩ := hrun
  rw [except_bind_ok] at hrun
  obtain ⟨subs, g4, hrun⟩ := hrun
  rw [except_bind_ok] at hrun
  obtain ⟨np, g5, hrun⟩ := hrun
  rw [except_bind_ok] at hrun
  obtain ⟨rid0, g6, hrun⟩ := hrun
  rw [except_bind_ok] at hrun
  obtain ⟨seg, g7, hrun⟩ := hrun
  unfold _send_new_port_notify at hrun
  rw [except_bind_ok] at hrun
  obtain ⟨np2, g8, hrun⟩ := hrun
  rw [if_pos rfl] at hrun
  simp only [pure_eq_ok, Except.ok.injEq, Prod.mk.injEq] at hrun
  obtain ⟨hp2, heffs⟩ := hrun
  obtain ⟨dnp0, hdnp0⟩ := getItem_ok_dict (env.get_port ctx pid) "fixed_ips" fips g2
  rw [hdnp0] at g5
  simp only [PyVal.setItem, Except.ok.injEq] at g5
  subst g5
  simp only [PyVal.setItem, Except.ok.injEq] at g8
  subst g8
  subst hp2
  have hrr : rid0 = rid := by
    have hb2 := hrid
    rw [build_router_id_setItem env.router_interface_owners
      (dictSet dnp0 "subnets" (.list subs)) seg] at hb2
    rw [g6] at hb2
    simp only [Except.ok.injEq] at hb2
    exact hb2
  subst hrr
  refine ⟨heffs.symm, ?_, ?_⟩
  all_goals
    unfold build_add_router_id at hrid
    rw [howner] at hrid
    simp only [ok_bind] at hrid
  · intro hm
    rw [if_pos hm] at hrid
    exact hrid
  · intro hm
    rw [hm] at hrid
    simp only [Bool.false_eq_true, if_false, pure_eq_ok, Except.ok.injEq] at hrid
    exact hrid.symm

/-- Claim C5 witness: a router-interface port's add notification
resolves the router id to the port's `device_id`. -/
theorem claim5_witness :
    portRiAddW.getItem "device_id" = Except.ok (PyVal.str "r7") :=
  (claim5_add_router_id envRiW ctxW portRiW portRiAddW
      [Eff.targetedArp "add_arp_entry" (.str "r7") portRiAddW .none]
      (.str "r7") (.str "network:router_interface") rfl rfl rfl).2.1 rfl

/-- Claim C6 (code bug): when a binding context exists but its first
network-segment entry cannot be read, the resolver raises instead of
logging and returning the empty binding info: an empty segment list
raises `IndexError` (the `try` only catches `KeyError`), and on the
`KeyError` path the handler's `if not segment:` dereferences the
still-unbound local `segment`, raising `UnboundLocalError` before the
intended `return {}` is reached. -/
theorem claim6_missing_segment_raises :
    envEmptySegW.get_bound_port_context ctxW (.str "p1") (.str "host-a") = some pcEmptySegW
    ∧ get_ml2_port_bond_data envEmptySegW ctxW (.str "p1") (.str "host-a")
        = .error .indexError
    ∧ envDictSegW.get_bound_port_context ctxW (.str "p1") (.str "host-a") = some pcDictSegW
    ∧ get_ml2_port_bond_data envDictSegW ctxW (.str "p1") (.str "host-a")
        = .error (.nameError "segment") :=
  ⟨rfl, rfl, rfl, rfl⟩

/-- The removed-routers loop emits exactly one router-deleted
notification per list entry, index for index, carrying that entry's
`router_id` and nothing else. -/
theorem routerLoop_spec (ctx : PyVal) :
    ∀ (rrs : List PyVal) (effs : List Eff), routerLoop ctx rrs = .ok effs →
      effs.length = rrs.length
      ∧ ∀ i r, rrs.get? i = some r →
          ∃ rid, r.getItem "router_id" = .ok rid
            ∧ effs.get? i = some (.routerDeleted rid) := by
  intro rrs
  induction rrs with
  | nil =>
    intro effs h
    simp only [routerLoop, Except.ok.injEq] at h
    subst h
    constructor
    · rfl
    · intro i r hi
      simp [List.get?] at hi
  | cons r rest ih =>
    intro effs h
    unfold routerLoop at h
    rw [except_bind_ok] at h
    obtain ⟨aid, h1, h⟩ := h
    rw [except_bind_ok] at h
    obtain ⟨rid, h2, h⟩ := h
    rw [except_bind_ok] at h
    obtain ⟨effsR, h3, h⟩ := h
    simp only [pure_eq_ok, Except.ok.injEq] at h
    subst h
    obtain ⟨ihlen, ihspec⟩ := ih effsR h3
    constructor
    · simp [remove_router_from_l3_agent, ihlen]
    · intro i rr hi
      cases i with
      | zero =>
        simp only [List.get?] at hi
        obtain rfl : r = rr := by
          simpa using hi
        exact ⟨rid, h2, rfl⟩
      | succ j =>
        simp only [List.get?] at hi
        obtain ⟨rid2, hr2, he2⟩ := ihspec j rr hi
        exact ⟨rid2, hr2, by simpa [remove_router_from_l3_agent] using he2⟩

/-- Claim C7 (amended): for every entry of `removed_routers`, the
AFTER_DELETE dispatcher triggers exactly one router-deleted
notification carrying that entry's `router_id`; the notification is
emitted through `remove_router_from_l3_agent`, which discards the
entry's `agent_id`, so it is not addressed to that specific agent. -/
theorem claim7_router_deleted_per_entry (env : Env) (kwargs : List (String × PyVal))
    (port2 : PyVal) (allEffs : List Eff) (ctx : PyVal) (rrs : List PyVal)
    (hrun : _notify_l3_agent_delete_port env kwargs = .ok (port2, allEffs))
    (hctx : kwGet kwargs "context" = .ok ctx)
    (hrr : kwGet kwargs "removed_routers" = .ok (.list rrs)) :
    ∃ pre effs, allEffs = pre ++ effs ∧ routerLoop ctx rrs = .ok effs
      ∧ effs.length = rrs.length
      ∧ ∀ i r, rrs.get? i = some r →
          ∃ rid, r.getItem "router_id" = .ok rid
            ∧ effs.get? i = some (Eff.routerDeleted rid) := by
  unfold _notify_l3_agent_delete_port at hrun
  rw [except_bind_ok] at hrun
  obtain ⟨ctx0, k1, hrun⟩ := hrun
  rw [except_bind_ok] at hrun
  obtain ⟨port0, k2, hrun⟩ := hrun
  rw [except_bind_ok] at hrun
  obtain ⟨removed, k3, hrun⟩ := hrun
  rw [except_bind_ok] at hrun
  obtain ⟨res, k4, hrun⟩ := hrun
  rw [except_bind_ok] at hrun
  obtain ⟨owner, k5, hrun⟩ := hrun
  rw [except_bind_ok] at hrun
  obtain ⟨effs2, k6, hrun⟩ := hrun
  rw [except_bind_ok] at hrun
  obtain ⟨rrsL, k7, hrun⟩ := hrun
  rw [except_bind_ok] at hrun
  obtain ⟨effs3, k8, hrun⟩ := hrun
  simp only [pure_eq_ok, Except.ok.injEq, Prod.mk.injEq] at hrun
  obtain ⟨hp, heffs⟩ := hrun
  have hc : ctx0 = ctx := by
    rw [hctx] at k1
    simpa using k1.symm
  have hrm : removed = .list rrs := by
    rw [hrr] at k3
    simpa using k3.symm
  subst hrm
  have hl : rrsL = rrs := by
    simpa [asPyList] using k7.symm
  rw [hc, hl] at k8
  obtain ⟨hlen, hspec⟩ := routerLoop_spec ctx rrs effs3 k8
  exact ⟨res.2 ++ effs2, effs3, by rw [← heffs, List.append_assoc], k8, hlen, hspec⟩

/-- Claim C7 counterexample: two removed-routers entries that differ
only in `agent_id` produce identical notifications — both the loop and
the whole dispatcher emit the same trace — so the router-removed
notification cannot be addressed to the entry's specific agent. -/
theorem claim7_counterexample :
    routerLoop ctxW [removedEntryW] = .ok [.routerDeleted (.str "r7")]
    ∧ routerLoop ctxW [.dict [("agent_id", .str "a4"), ("router_id", .str "r7")]]
        = .ok [.routerDeleted (.str "r7")]
    ∧ _notify_l3_agent_delete_port envW kwargsW
        = _notify_l3_agent_delete_port envW kwargsAltAgentW
    ∧ ("a3" : String) ≠ "a4" :=
  ⟨rfl, rfl, rfl, by decide⟩

/-- Claim C7 witness: the amended per-entry property at a concrete
delete event with one removed router. -/
theorem claim7_witness :
    ∃ pre effs,
      (_agent_notification_arp envW "del_arp_entry" portVmDelW
          ++ [] ++ [Eff.routerDeleted (.str "r7")]) = pre ++ effs
      ∧ routerLoop ctxW [removedEntryW] = .ok effs
      ∧ effs.length = [removedEntryW].length
      ∧ ∀ i r, [removedEntryW].get? i = some r →
          ∃ rid, r.getItem "router_id" = .ok rid
            ∧ effs.get? i = some (Eff.routerDeleted rid) :=
  claim7_router_deleted_per_entry envW kwargsW portVmDelW
    (_agent_notification_arp envW "del_arp_entry" portVmDelW
      ++ [] ++ [Eff.routerDeleted (.str "r7")]) ctxW [removedEntryW] rfl rfl rfl

/-- Claim C8 (amended): when no enabled L3 agent is registered on the
host, `auto_schedule_routers` returns `False` and performs no bind —
the scheduling policy is never consulted; when an agent exists the
policy runs and the routers are bound, but the function falls off its
end and returns `None`, not a boolean. -/
theorem claim8_auto_schedule (env : Env) (ctx host ids : PyVal) :
    (env.get_enabled_agent_on_host ctx host = Option.none →
      auto_schedule_routers env ctx host ids = (.bool false, []))
    ∧ ∀ a, env.get_enabled_agent_on_host ctx host = some a →
        (auto_schedule_routers env ctx host ids).1 = .none
        ∧ (env.router_scheduler_present = true →
            (auto_schedule_routers env ctx host ids).2 =
              [.getRoutersToSchedule ids,
               .bindRouters (env.get_routers_to_schedule ids) a])
        ∧ (env.router_scheduler_present = false →
            (auto_schedule_routers env ctx host ids).2 = []) := by
  constructor
  · intro h
    unfold auto_schedule_routers
    rw [h]
  · intro a h
    unfold auto_schedule_routers
    rw [h]
    cases hs : env.router_scheduler_present <;> simp [hs]

/-- Claim C8 counterexample: with an enabled agent on the host, the
scheduling call returns `None` — not a boolean — refuting
"always returns a boolean value". -/
theorem claim8_counterexample :
    (auto_schedule_routers envAgentW ctxW (.str "host-a") (.list [])).1 = .none
    ∧ ((auto_schedule_routers envAgentW ctxW (.str "host-a") (.list [])).1).isBool
        = false :=
  ⟨rfl, rfl⟩

/-- Claim C8 witness: the no-agent branch at a concrete environment
returns `False` with no scheduling effects. -/
theorem claim8_witness :
    auto_schedule_routers envW ctxW (.str "host-a") (.list []) = (.bool false, []) :=
  (claim8_auto_schedule envW ctxW (.str "host-a") (.list [])).1 rfl

/-- Subnet enrichment succeeds when every fixed-ip entry carries a
`subnet_id`. -/
theorem subnetsOf_ok (env : Env) (ctx : PyVal) :
    ∀ l : List PyVal, (∀ f ∈ l, ∃ s, f.getItem "subnet_id" = .ok s) →
      ∃ out, subnetsOf env ctx l = .ok out := by
  intro l
  induction l with
  | nil => intro _; exact ⟨[], rfl⟩
  | cons f fs ih =>
    intro h
    obtain ⟨s, hs⟩ := h f (by simp)
    obtain ⟨out, hout⟩ := ih (fun g hg => h g (by simp [hg]))
    refine ⟨env.get_subnet ctx s :: out, ?_⟩
    unfold subnetsOf
    rw [hs]
    simp only [ok_bind]
    rw [hout]
    simp

/-- The removed-routers loop succeeds when every entry carries both an
`agent_id` and a `router_id`. -/
theorem routerLoop_ok (ctx : PyVal) :
    ∀ rrs : List PyVal,
      (∀ r ∈ rrs, (∃ a, r.getItem "agent_id" = .ok a)
        ∧ ∃ b, r.getItem "router_id" = .ok b) →
      ∃ effs, routerLoop ctx rrs = .ok effs := by
  intro rrs
  induction rrs with
  | nil => intro _; exact ⟨[], rfl⟩
  | cons r rest ih =>
    intro h
    obtain ⟨⟨a, ha⟩, b, hb⟩ := h r (by simp)
    obtain ⟨effs, heffs⟩ := ih (fun g hg => h g (by simp [hg]))
    refine ⟨remove_router_from_l3_agent ctx a b ++ effs, ?_⟩
    unfold routerLoop
    rw [ha]
    simp only [ok_bind]
    rw [hb]
    simp only [ok_bind]
    rw [heffs]
    simp

/-- The port-removed path succeeds on any port dict with a string
`device_owner`, a `fixed_ips` list of subnet-carrying entries; it never
changes `device_owner` or `device_id`. -/
theorem remove_port_ok (env : Env) (ctx port : PyVal) (owner : String) (fips : List PyVal)
    (howner : port.getItem "device_owner" = .ok (.str owner))
    (hfips : port.getItem "fixed_ips" = .ok (.list fips))
    (hsub : ∀ f ∈ fips, ∃ s, f.getItem "subnet_id" = .ok s) :
    ∃ res, remove_port env ctx port = .ok res
      ∧ res.1.getItem "device_owner" = .ok (.str owner)
      ∧ res.1.getItem "device_id" = port.getItem "device_id" := by
  have hb : is_vm_port_with_ip_addresses port
      = .ok (strContainsSub owner "compute:" && decide (0 < fips.length)) := by
    unfold is_vm_port_with_ip_addresses
    rw [howner]
    simp only [ok_bind, pyInStr]
    rw [hfips]
    simp only [ok_bind, pyLen, pure_eq_ok]
  cases hbv : strContainsSub owner "compute:" && decide (0 < fips.length) with
  | false =>
    refine ⟨(port, []), ?_, howner, rfl⟩
    unfold remove_port
    rw [hb, hbv]
    simp
  | true =>
    obtain ⟨subs, hsubs⟩ := subnetsOf_ok env ctx fips hsub
    obtain ⟨d, hd⟩ := getItem_ok_dict port "device_owner" (.str owner) howner
    subst hd
    refine ⟨(.dict (dictSet (dictSet d "subnets" (.list subs))
        "segmentation_id" (.int 0)),
      _del_arp_entry env (.int 0)
        (.dict (dictSet (dictSet d "subnets" (.list subs))
          "segmentation_id" (.int 0))) .none), ?_, ?_, ?_⟩
    · unfold remove_port
      rw [hb]
      simp only [ok_bind]
      rw [hbv, if_pos rfl]
      unfold remove_vm_port
      rw [hfips]
      simp only [ok_bind, asPyList]
      rw [hsubs]
      simp only [ok_bind, PyVal.setItem]
      unfold _send_new_port_notify
      simp only [ok_bind, PyVal.setItem]
      simp
    · rw [getItem_setItem_ne _ _ _ _ (by decide),
        getItem_setItem_ne _ _ _ _ (by decide)]
      exact howner
    · rw [getItem_setItem_ne _ _ _ _ (by decide),
        getItem_setItem_ne _ _ _ _ (by decide)]

/-- Claim C9 (amended): an AFTER_DELETE event completes without raising
provided its kwargs carry `context`, `port` and `removed_routers`, the
port dict has a string `device_owner`, a `fixed_ips` list whose entries
carry `subnet_id`, a `device_id` when the owner tag is a
router-interface kind, and every removed-routers entry carries
`agent_id` and `router_id`; a missing key instead aborts processing
with a `KeyError` rather than degrading to a default. -/
theorem claim9_delete_totality (env : Env) (kwargs : List (String × PyVal))
    (ctx port : PyVal) (owner : String) (fips rrs : List PyVal)
    (hctx : kwGet kwargs "context" = .ok ctx)
    (hport : kwGet kwargs "port" = .ok port)
    (hrr : kwGet kwargs "removed_routers" = .ok (.list rrs))
    (howner : port.getItem "device_owner" = .ok (.str owner))
    (hfips : port.getItem "fixed_ips" = .ok (.list fips))
    (hsub : ∀ f ∈ fips, ∃ s, f.getItem "subnet_id" = .ok s)
    (hdev : pyMemStrs (.str owner) env.router_interface_owners = true →
      ∃ did, port.getItem "device_id" = .ok did)
    (hrrs : ∀ r ∈ rrs, (∃ a, r.getItem "agent_id" = .ok a)
      ∧ ∃ b, r.getItem "router_id" = .ok b) :
    ∃ res, _notify_l3_agent_delete_port env kwargs = .ok res := by
  obtain ⟨res0, hrp, hown2, hdev2⟩ :=
    remove_port_ok env ctx port owner fips howner hfips hsub
  have hri : ∃ e2, riOwnerEffs env ctx (.str owner) res0.1 = .ok e2 := by
    unfold riOwnerEffs
    cases hm : pyMemStrs (.str owner) env.router_interface_owners with
    | false =>
      refine ⟨[], ?_⟩
      simp
    | true =>
      obtain ⟨did, hdid⟩ := hdev hm
      refine ⟨[.routersUpdated [did] "del_interface" (.dict [("port", res0.1)])], ?_⟩
      rw [if_pos rfl]
      unfold delete_router_interface
      rw [hdev2, hdid]
      simp
  obtain ⟨e2, hri2⟩ := hri
  obtain ⟨effs3, h3⟩ := routerLoop_ok ctx rrs hrrs
  refine ⟨(res0.1, res0.2 ++ e2 ++ effs3), ?_⟩
  unfold _notify_l3_agent_delete_port
  rw [hctx]
  simp only [ok_bind]
  rw [hport]
  simp only [ok_bind]
  rw [hrr]
  simp only [ok_bind]
  rw [hrp]
  simp only [ok_bind]
  rw [hown2]
  simp only [ok_bind]
  rw [hri2]
  simp only [ok_bind]
  simp only [asPyList, ok_bind]
  rw [h3]
  simp

/-- Claim C9 counterexample: kwargs without a `removed_routers` key
make the AFTER_DELETE handler raise `KeyError` instead of degrading to
a default — the pipeline aborts. -/
theorem claim9_counterexample :
    _notify_l3_agent_delete_port envW kwargsNoRemovedW
      = .error (.keyError "removed_routers") := rfl

/-- Claim C9 witness: a fully keyed delete event at a concrete
environment completes without raising. -/
theorem claim9_witness :
    ∃ res, _notify_l3_agent_delete_port envW kwargsW = .ok res :=
  claim9_delete_totality envW kwargsW ctxW portVmW "compute:nova"
    [.dict [("subnet_id", .str "s1")]] [removedEntryW]
    rfl rfl rfl rfl rfl
    (by
      intro f hf
      simp only [List.mem_singleton] at hf
      subst hf
      exact ⟨.str "s1", rfl⟩)
    (by
      intro hm
      exact ⟨.str "vm1", rfl⟩)
    (by
      intro r hr
      simp only [List.mem_singleton] at hr
      subst hr
      exact ⟨⟨.str "a3", rfl⟩, .str "r7", rfl⟩)

/-- Claim C10: on a successful eligible delete, the caller's port dict
is updated in place with exactly a `subnets` entry and a
`segmentation_id` entry — every other key reads back unchanged — and
the broadcast payloads carry that same updated dict as their
`arp_table`. -/
theorem claim10_delete_frame (env : Env) (ctx p p2 : PyVal) (effs : List Eff)
    (h : remove_vm_port env ctx p = .ok (p2, effs)) :
    ∃ d subs, p = .dict d
      ∧ p2 = .dict (dictSet (dictSet d "subnets" subs) "segmentation_id" (.int 0))
      ∧ p2.getItem "subnets" = .ok subs
      ∧ p2.getItem "segmentation_id" = .ok (.int 0)
      ∧ (∀ k, ¬ k = "subnets" → ¬ k = "segmentation_id" →
          p2.getItem k = p.getItem k)
      ∧ effs = _agent_notification_arp env "del_arp_entry" p2 := by
  unfold remove_vm_port at h
  rw [except_bind_ok] at h
  obtain ⟨fips, h1, h⟩ := h
  rw [except_bind_ok] at h
  obtain ⟨fipsL, h2, h⟩ := h
  rw [except_bind_ok] at h
  obtain ⟨subs, h3, h⟩ := h
  rw [except_bind_ok] at h
  obtain ⟨pd, h4, h⟩ := h
  unfold _send_new_port_notify at h
  rw [except_bind_ok] at h
  obtain ⟨np, h5, h⟩ := h
  rw [if_neg (by decide), if_pos rfl] at h
  simp only [pure_eq_ok, Except.ok.injEq, Prod.mk.injEq] at h
  obtain ⟨hnp, heffs⟩ := h
  obtain ⟨d, rfl⟩ := getItem_ok_dict p "fixed_ips" fips h1
  simp only [PyVal.setItem, Except.ok.injEq] at h4
  subst h4
  simp only [PyVal.setItem, Except.ok.injEq] at h5
  subst h5
  subst hnp
  refine ⟨d, .list subs, rfl, rfl, ?_, ?_, ?_, ?_⟩
  · rw [getItem_setItem_ne _ _ _ _ (by decide)]
    simp [PyVal.getItem, dictGet_dictSet_self]
  · simp [PyVal.getItem, dictGet_dictSet_self]
  · intro k hk1 hk2
    rw [getItem_setItem_ne _ _ _ _ hk2, getItem_setItem_ne _ _ _ _ hk1]
  · rw [← heffs]
    simp [_del_arp_entry, PyVal.truthy]

/-- Claim C10 witness: the frame property at a concrete VM port. -/
theorem claim10_witness :
    ∃ d subs, portVmW = .dict d
      ∧ portVmDelW = .dict (dictSet (dictSet d "subnets" subs) "segmentation_id" (.int 0))
      ∧ portVmDelW.getItem "subnets" = .ok subs
      ∧ portVmDelW.getItem "segmentation_id" = .ok (.int 0)
      ∧ (∀ k, ¬ k = "subnets" → ¬ k = "segmentation_id" →
          portVmDelW.getItem k = portVmW.getItem k)
      ∧ _agent_notification_arp envW "del_arp_entry" portVmDelW
          = _agent_notification_arp envW "del_arp_entry" portVmDelW :=
  claim10_delete_frame envW ctxW portVmW portVmDelW
    (_agent_notification_arp envW "del_arp_entry" portVmDelW) rfl
